import Mathlib

/-!
Verification development for the PTY session manager of the Termy
repository (`src/rust-servers/src/pty/mod.rs` and
`src/rust-servers/src/pty/shell.rs`).

The Rust code is shallowly embedded: bytes are `Nat` values below 256,
byte buffers are `List Nat`, the bounded handoff queue between the
blocking reader thread and the cooperative batcher is a finite list of
timestamped events (the end of the list models the queue being closed,
which happens exactly when the reader thread exits), and real time is an
abstract `Nat` clock in milliseconds.  Downstream sends are modelled as
succeeding (the send-failure path of the pump merely terminates it
early and is outside the claims considered here).
-/

/-! ## Data model shared by the pump and the handler -/

deriving instance DecidableEq for Except

/-- The module tag carried by `ServerResponse` (`ModuleType::Pty` is the
only variant exercised by this module). -/
inductive ModuleType where
  | pty : ModuleType
deriving DecidableEq

/-- A JSON scalar, enough to embed the payloads built with
`serde_json::json!` in `mod.rs` (`success`, `session_id`, `code`). -/
inductive JsonVal where
  | str : String → JsonVal
  | num : Nat → JsonVal
  | bool : Bool → JsonVal
deriving DecidableEq

/-- `ServerResponse::new(module, msg_type, data)`: an outbound control
message; the payload is the field list of the JSON object. -/
structure ServerResponse where
  module : ModuleType
  msg_type : String
  payload : List (String × JsonVal)
deriving DecidableEq

/-- The `ReadEvent` enum defined inside `start_read_task`
(mod.rs lines 178-182): `Data(Vec<u8>)`, `Eof`, `Error(String)`. -/
inductive ReadEvent where
  | data : List Nat → ReadEvent
  | eof : ReadEvent
  | error : String → ReadEvent
deriving DecidableEq

/-- An event on the handoff queue together with the instant (in
milliseconds) at which it becomes available to the batcher. -/
structure TimedEvent where
  time : Nat
  ev : ReadEvent
deriving DecidableEq

/-- One unit sent on the downstream WebSocket channel:
`Message::Binary` (a data frame) or `Message::Text` (a JSON control
message, here only the exit notice). -/
inductive OutMsg where
  | binary : List Nat → OutMsg
  | text : ServerResponse → OutMsg
deriving DecidableEq

/-- UTF-8 encoding of one character, modelling Rust's
`str::as_bytes` byte view one scalar value at a time. -/
def utf8Bytes (c : Char) : List Nat :=
  let n := c.toNat
  if n < 128 then [n]
  else if n < 2048 then [192 + n / 64, 128 + n % 64]
  else if n < 65536 then [224 + n / 4096, 128 + (n / 64) % 64, 128 + n % 64]
  else [240 + n / 262144, 128 + (n / 4096) % 64, 128 + (n / 64) % 64, 128 + n % 64]

/-- `session_id.as_bytes()`: the UTF-8 bytes of a string. -/
def strBytes (s : String) : List Nat :=
  (s.data.map utf8Bytes).flatten

/-- The binary frame built at mod.rs lines 262-270:
`[session_id_length as u8][session_id bytes][payload]`.  The `as u8`
cast is the `% 256` on the length octet. -/
def buildFrame (session_id : String) (batch : List Nat) : List Nat :=
  ((strBytes session_id).length % 256) :: (strBytes session_id ++ batch)

/-- The exit notice sent at mod.rs lines 291-298:
`ServerResponse::new(Pty, "exit", {session_id, code: 0})`. -/
def exitResponse (session_id : String) : ServerResponse :=
  { module := ModuleType.pty
    msg_type := "exit"
    payload := [("session_id", JsonVal.str session_id), ("code", JsonVal.num 0)] }

/-! ## The batcher (cooperative half of the output pump) -/

/-- Result of one run of the inner coalescing loop
(mod.rs lines 231-253): the accumulated batch buffer, the
`pending_exit` / `pending_error` flags, and the events left unconsumed
on the queue. -/
structure CoalesceResult where
  batch : List Nat
  pendingExit : Bool
  pendingError : Option String
  rest : List TimedEvent
deriving DecidableEq

/-- The inner coalescing loop of the batcher (mod.rs lines 231-253),
entered with the deadline already fixed.  `time::timeout_at(deadline, recv)`
yields the next event when it is available no later than the deadline;
otherwise the timeout fires and the loop breaks without consuming it.
An empty queue models `Ok(None)` (channel closed), which also breaks.
`Data` payloads are appended to the batch buffer; `Eof` sets
`pending_exit` and breaks; `Error` sets `pending_error` and breaks. -/
def coalesce (deadline : Nat) (batch : List Nat) : List TimedEvent → CoalesceResult
  | [] => ⟨batch, false, none, []⟩
  | e :: rest =>
    if e.time ≤ deadline then
      match e.ev with
      | ReadEvent.data d => coalesce deadline (batch ++ d) rest
      | ReadEvent.eof => ⟨batch, true, none, rest⟩
      | ReadEvent.error m => ⟨batch, false, some m, rest⟩
    else
      ⟨batch, false, none, e :: rest⟩

/-- `payloadOf` projects the byte payload of a queue event. -/
def payloadOf : ReadEvent → List Nat
  | ReadEvent.data d => d
  | ReadEvent.eof => []
  | ReadEvent.error _ => []

/-- Concatenation, in arrival order, of all `Data` payloads of a queue
trace: the bytes the batcher receives from the blocking reader. -/
def dataBytes : List TimedEvent → List Nat
  | [] => []
  | e :: rest => payloadOf e.ev ++ dataBytes rest

/-- A suffix of the rest of the queue never grows under coalescing;
used for termination of the outer pump loop. -/
theorem coalesce_rest_length (deadline : Nat) :
    ∀ (evs : List TimedEvent) (batch : List Nat),
      (coalesce deadline batch evs).rest.length ≤ evs.length := by
  intro evs
  induction evs with
  | nil => intro batch; simp [coalesce]
  | cons e rest ih =>
    intro batch
    by_cases h : e.time ≤ deadline
    · cases hev : e.ev with
      | data d =>
        simp only [coalesce, h, if_true, hev]
        exact Nat.le_succ_of_le (ih (batch ++ d))
      | eof => simp [coalesce, h, hev, Nat.le_succ]
      | error m => simp [coalesce, h, hev, Nat.le_succ]
    · simp [coalesce, h]

/-- The outer loop of the batcher (mod.rs lines 215-305), one list
element per `read_rx.recv()` at the top of an iteration.  The batch
buffer is empty at the start of every iteration (it is cleared at line
279), so an iteration whose first event is `Eof` or `Error` flushes no
frame.  A data-first iteration opens the fixed deadline `now + 4` (the
constant `OUTPUT_BATCH_INTERVAL_MS`), coalesces, flushes one frame if
the buffer is non-empty, then terminates on a pending error (no exit
notice), terminates after sending the exit notice on a pending exit,
and otherwise continues with the unconsumed events. -/
def pumpLoop (session_id : String) : List TimedEvent → List OutMsg
  | [] => []
  | ⟨_, ReadEvent.eof⟩ :: _ => [OutMsg.text (exitResponse session_id)]
  | ⟨_, ReadEvent.error _⟩ :: _ => []
  | ⟨t, ReadEvent.data d⟩ :: rest =>
    (if (coalesce (t + 4) d rest).batch.isEmpty then []
     else [OutMsg.binary (buildFrame session_id (coalesce (t + 4) d rest).batch)]) ++
    (if (coalesce (t + 4) d rest).pendingError.isSome then []
     else if (coalesce (t + 4) d rest).pendingExit then
       [OutMsg.text (exitResponse session_id)]
     else pumpLoop session_id (coalesce (t + 4) d rest).rest)
termination_by evs => evs.length
decreasing_by
  simp only [List.length_cons]
  exact Nat.lt_succ_of_le (coalesce_rest_length _ _ _)

/-! ## The blocking reader worker -/

/-- One return of `reader.read(&mut local_buf)` on the blocking thread:
`ok bytes` is `Ok(n)` with the buffer already truncated to the `n`
bytes read (so `ok []` is `Ok(0)`), `err` is `Err(e)`. -/
inductive ReadResult where
  | ok : List Nat → ReadResult
  | err : String → ReadResult
deriving DecidableEq

/-- The blocking worker loop (mod.rs lines 187-211): `Ok(0)` enqueues
`Eof` and breaks, `Ok(n)` enqueues the truncated buffer as `Data` and
continues, `Err` enqueues `Error` and breaks. -/
def readerEvents : List ReadResult → List ReadEvent
  | [] => []
  | ReadResult.ok [] :: _ => [ReadEvent.eof]
  | ReadResult.ok bs :: rest => ReadEvent.data bs :: readerEvents rest
  | ReadResult.err m :: _ => [ReadEvent.error m]

/-- `isData` tests for the `Data` constructor. -/
def ReadEvent.isData : ReadEvent → Bool
  | ReadEvent.data _ => true
  | ReadEvent.eof => false
  | ReadEvent.error _ => false

/-- Well-formedness of a queue trace: every event except possibly the
last is `Data`.  This is exactly the shape the blocking worker
produces, since it breaks immediately after enqueueing `Eof` or
`Error`. -/
def streamWF : List TimedEvent → Bool
  | [] => true
  | e :: rest => (rest.isEmpty || e.ev.isData) && streamWF rest

/-! ## Session table and handler (mod.rs lines 48-453)

`session.rs` is not part of the sources under verification; the PTY
session handle, reader, writer and spawned-task handle are therefore
opaque values here, and the fallible operations they provide
(`PtySession::new`, `writer.write`, `pty.resize`) enter the model as
explicit result parameters. -/

/-- Opaque PTY session handle (from the out-of-scope `session` module). -/
structure PtySession where
  id : Nat
deriving DecidableEq

/-- Opaque blocking PTY reader handle. -/
structure PtyReader where
  id : Nat
deriving DecidableEq

/-- Opaque blocking PTY writer handle. -/
structure PtyWriter where
  id : Nat
deriving DecidableEq

/-- Opaque `tokio::task::JoinHandle<()>` of the output pump. -/
structure TaskHandle where
  id : Nat
deriving DecidableEq

/-- Opaque cloned WebSocket sender handle. -/
structure WsSender where
  id : Nat
deriving DecidableEq

/-- `PtySessionContext` (mod.rs lines 48-55): the per-session resources
stored in the table. -/
structure PtySessionContext where
  session : PtySession
  writer : PtyWriter
  read_task : Option TaskHandle
deriving DecidableEq

/-- The state of a `PtyHandler` (mod.rs lines 78-83): the session table
(a `HashMap` embedded as an association list with unique keys) and the
optional downstream sender. -/
structure PtyHandlerState where
  sessions : List (String × PtySessionContext)
  ws_sender : Option WsSender
deriving DecidableEq

/-- The only `RouterError` variant this module constructs:
`RouterError::ModuleError(message)`. -/
inductive RouterError where
  | moduleError : String → RouterError
deriving DecidableEq

/-- `HashMap::insert`: replaces any entry under the same key. -/
def insertSession (l : List (String × PtySessionContext)) (k : String)
    (v : PtySessionContext) : List (String × PtySessionContext) :=
  (k, v) :: l.eraseP (fun p => p.1 == k)

/-- `handle_destroy` (mod.rs lines 340-363): remove the entry if
present (killing the child and detaching the pump task are
fire-and-forget side effects without observable state here) and return
`Ok`; otherwise return the `SESSION_NOT_FOUND` error and leave the
table untouched. -/
def handle_destroy (st : PtyHandlerState) (session_id : String) :
    Except RouterError Unit × PtyHandlerState :=
  match st.sessions.lookup session_id with
  | some _ =>
      (Except.ok (),
       { st with sessions := st.sessions.eraseP (fun p => p.1 == session_id) })
  | none =>
      (Except.error (RouterError.moduleError ("SESSION_NOT_FOUND: " ++ session_id)), st)

/-- `handle_init` (mod.rs lines 101-154).  `factory` is the outcome of
`PtySession::new`; the generated UUID arrives as `session_id`.  On
factory failure the error is wrapped and nothing changes; then
`start_read_task` fails if no WebSocket sender was set (mod.rs line
174), again changing nothing; otherwise the context (with the pump
task handle) is inserted and `init_complete` is returned. -/
def handle_init (st : PtyHandlerState) (session_id : String)
    (factory : Except String (PtySession × PtyReader × PtyWriter)) :
    Except RouterError (Option ServerResponse) × PtyHandlerState :=
  match factory with
  | Except.error e =>
      (Except.error (RouterError.moduleError ("创建 PTY 会话失败: " ++ e)), st)
  | Except.ok (s, _, w) =>
    match st.ws_sender with
    | none => (Except.error (RouterError.moduleError "WebSocket sender not set"), st)
    | some _ =>
      let ctx : PtySessionContext := { session := s, writer := w, read_task := some ⟨0⟩ }
      (Except.ok (some
        { module := ModuleType.pty
          msg_type := "init_complete"
          payload := [("success", JsonVal.bool true), ("session_id", JsonVal.str session_id)] }),
       { st with sessions := insertSession st.sessions session_id ctx })

/-- `handle_resize` (mod.rs lines 312-324).  The OS-level resize is the
parameter `resizeResult`; the handler surfaces lookup failure as
`SESSION_NOT_FOUND` and a resize failure with its own message, and
returns no response on success.  The state is never changed. -/
def handle_resize (st : PtyHandlerState) (session_id : String)
    (cols rows : Nat) (resizeResult : Except String Unit) :
    Except RouterError (Option ServerResponse) :=
  match st.sessions.lookup session_id with
  | none => Except.error (RouterError.moduleError ("SESSION_NOT_FOUND: " ++ session_id))
  | some _ =>
    match cols, rows, resizeResult with
    | _, _, Except.error e =>
        Except.error (RouterError.moduleError ("调整终端尺寸失败: " ++ e))
    | _, _, Except.ok _ => Except.ok none

/-- `write_data` (mod.rs lines 327-337).  The blocking write is the
parameter `writeResult`. -/
def write_data (st : PtyHandlerState) (session_id : String)
    (writeResult : Except String Unit) : Except RouterError Unit :=
  match st.sessions.lookup session_id with
  | none => Except.error (RouterError.moduleError ("SESSION_NOT_FOUND: " ++ session_id))
  | some _ =>
    match writeResult with
    | Except.error e => Except.error (RouterError.moduleError ("写入 PTY 失败: " ++ e))
    | Except.ok _ => Except.ok ()

/-- The externally observable per-entry effects of `cleanup_all`: the
best-effort `session.kill()` attempt and the await of the pump task. -/
inductive CleanupAction where
  | kill : String → CleanupAction
  | awaitTask : String → CleanupAction
deriving DecidableEq

/-- The body of the `drain` loop of `cleanup_all` (mod.rs lines
370-382): for each removed context, attempt `kill()` and, when a pump
task handle is present, await it.  The sequential model has no lock
contention, so the `try_lock` guarding the kill always succeeds. -/
def cleanupActions : List (String × PtySessionContext) → List CleanupAction
  | [] => []
  | (session_id, ctx) :: rest =>
    CleanupAction.kill session_id ::
      ((match ctx.read_task with
        | some _ => [CleanupAction.awaitTask session_id]
        | none => []) ++ cleanupActions rest)

/-- `cleanup_all` (mod.rs lines 366-385): drains the whole table and
performs the per-entry actions; it returns `()` in the source (no
error path exists), so the model returns only the new state and the
action trace. -/
def cleanup_all (st : PtyHandlerState) : PtyHandlerState × List CleanupAction :=
  ({ st with sessions := [] }, cleanupActions st.sessions)

/-- `has_sessions` (mod.rs lines 388-391): `!sessions.is_empty()`. -/
def has_sessions (st : PtyHandlerState) : Bool :=
  !st.sessions.isEmpty

/-- An inbound `ModuleMessage` restricted to the fields this module
reads via `get_field`. -/
structure ModuleMessage where
  msg_type : String
  session_id : Option String
  cols : Option Nat
  rows : Option Nat
  shell_type : Option String
  cwd : Option String
deriving DecidableEq

/-- The environment-dependent outcomes threaded through one `handle`
call: the PTY factory result, the OS resize result and the freshly
generated UUID. -/
structure HandlerEffects where
  factory : Except String (PtySession × PtyReader × PtyWriter)
  resizeResult : Except String Unit
  new_session_id : String
deriving DecidableEq

/-- The `ModuleHandler::handle` dispatch (mod.rs lines 406-452):
`init` creates a session, `resize` and `destroy` require a
`session_id` (else `SESSION_ID_REQUIRED`), `resize` defaults missing
dimensions to 80×24, `env` is logged and ignored, and any other
message type yields the unknown-message-type error. -/
def handle (st : PtyHandlerState) (fx : HandlerEffects) (msg : ModuleMessage) :
    Except RouterError (Option ServerResponse) × PtyHandlerState :=
  if msg.msg_type = "init" then
    handle_init st fx.new_session_id fx.factory
  else if msg.msg_type = "resize" then
    match msg.session_id with
    | none => (Except.error (RouterError.moduleError "SESSION_ID_REQUIRED"), st)
    | some sid =>
      (handle_resize st sid (msg.cols.getD 80) (msg.rows.getD 24) fx.resizeResult, st)
  else if msg.msg_type = "destroy" then
    match msg.session_id with
    | none => (Except.error (RouterError.moduleError "SESSION_ID_REQUIRED"), st)
    | some sid =>
      match handle_destroy st sid with
      | (Except.ok _, st2) => (Except.ok none, st2)
      | (Except.error e, st2) => (Except.error e, st2)
  else if msg.msg_type = "env" then
    (Except.ok none, st)
  else
    (Except.error (RouterError.moduleError ("未知的 PTY 消息类型: " ++ msg.msg_type)), st)

/-! ## Shell resolution (shell.rs)

`shell.rs` probes the host: platform (`cfg(windows)`), `which` lookups,
environment variables and filesystem existence.  These probes are
gathered into a `ShellEnv` record so the functions stay pure. -/

/-- The host-dependent inputs of `shell.rs`: the platform flag, the
`which("powershell")` / `which("pwsh")` lookups, the
`which("bash.exe").or_else(|_| which("bash"))` lookup used by
`detect_gitbash`, the `SHELL`, `COMSPEC` and `USERPROFILE` environment
variables (`USERPROFILE` already defaulted to `""` as in
`unwrap_or_default`), and the `Path::exists` probe. -/
structure ShellEnv where
  is_windows : Bool
  which_powershell : Option String
  which_pwsh : Option String
  which_bash : Option String
  shell_var : Option String
  comspec : Option String
  userprofile : String
  path_exists : String → Bool

/-- `CommandBuilder`: the spawn descriptor, a program and its
argument vector.  `CommandBuilder::new` starts with no arguments. -/
structure CommandBuilder where
  program : String
  args : List String
deriving DecidableEq

/-- `CommandBuilder::new(program)`. -/
def CommandBuilder.new (program : String) : CommandBuilder :=
  ⟨program, []⟩

/-- `cmd.arg(a)`: appends one argument. -/
def CommandBuilder.addArg (c : CommandBuilder) (a : String) : CommandBuilder :=
  { c with args := c.args ++ [a] }

/-- `s.contains(pat)` on Rust strings, via `splitOn`: the pattern
occurs iff splitting yields more than one piece. -/
def containsSubstring (s pat : String) : Bool :=
  (s.splitOn pat).length != 1

/-- `s.starts_with(pat)` on Rust strings. -/
def strStartsWith (s pat : String) : Bool :=
  pat.data.isPrefixOf s.data

/-- `detect_windows_shell` (shell.rs lines 27-52): `SHELL` override,
then `which("powershell")`, then `which("pwsh")`, then `COMSPEC`, then
the literal `cmd.exe`. -/
def detect_windows_shell (env : ShellEnv) : String :=
  match env.shell_var with
  | some s => s
  | none =>
    match env.which_powershell with
    | some p => p
    | none =>
      match env.which_pwsh with
      | some p => p
      | none =>
        match env.comspec with
        | some s => s
        | none => "cmd.exe"

/-- `detect_unix_shell` (shell.rs lines 55-77): `SHELL` override, then
the first existing of the candidate list, then `/bin/sh`. -/
def detect_unix_shell (env : ShellEnv) : String :=
  match env.shell_var with
  | some s => s
  | none =>
    match ["/bin/zsh", "/bin/bash", "/bin/fish", "/bin/sh"].find? env.path_exists with
    | some s => s
    | none => "/bin/sh"

/-- `detect_default_shell` (shell.rs lines 14-24): dispatch on the
platform. -/
def detect_default_shell (env : ShellEnv) : String :=
  if env.is_windows then detect_windows_shell env else detect_unix_shell env

/-- `get_default_shell` (shell.rs lines 158-160). -/
def get_default_shell (env : ShellEnv) : CommandBuilder :=
  CommandBuilder.new (detect_default_shell env)

/-- `detect_gitbash` (shell.rs lines 163-190, Windows only): the first
existing standard Git Bash install path, else the PATH-resolved bash
unless its path contains `WindowsApps`, else nothing. -/
def detect_gitbash (env : ShellEnv) : Option String :=
  let gitbash_paths := ["C:\\Program Files\\Git\\bin\\bash.exe",
                        "C:\\Program Files (x86)\\Git\\bin\\bash.exe",
                        env.userprofile ++ "\\AppData\\Local\\Programs\\Git\\bin\\bash.exe"]
  match gitbash_paths.find? env.path_exists with
  | some p => some p
  | none =>
    match env.which_bash with
    | some p => if containsSubstring p "WindowsApps" then none else some p
    | none => none

/-- `get_shell_by_type` (shell.rs lines 80-155), with the
`cfg(windows)` blocks selected by `env.is_windows`.  The arms appear
in source order; `custom:<path>` strips the seven-character tag and
uses the remainder verbatim; anything else falls back to the default
shell. -/
def get_shell_by_type (env : ShellEnv) (shell_type : Option String) : CommandBuilder :=
  match shell_type with
  | none => get_default_shell env
  | some t =>
    if t = "cmd" then CommandBuilder.new "cmd.exe"
    else if t = "powershell" then
      if env.is_windows then
        match env.which_powershell with
        | some p => CommandBuilder.new p
        | none => CommandBuilder.new "powershell.exe"
      else get_default_shell env
    else if t = "pwsh" then
      if env.is_windows then
        match env.which_pwsh with
        | some p => CommandBuilder.new p
        | none =>
          match env.which_powershell with
          | some p => CommandBuilder.new p
          | none => CommandBuilder.new "powershell.exe"
      else CommandBuilder.new "pwsh"
    else if t = "wsl" then CommandBuilder.new "wsl.exe"
    else if t = "gitbash" then
      if env.is_windows then
        match detect_gitbash env with
        | some p => (CommandBuilder.new p).addArg "--login"
        | none => get_default_shell env
      else CommandBuilder.new "bash"
    else if t = "bash" then CommandBuilder.new "bash"
    else if t = "zsh" then CommandBuilder.new "zsh"
    else if strStartsWith t "custom:" then CommandBuilder.new (t.drop 7)
    else get_default_shell env

/-- Splitting a character list at every `/`, the building block for
`Path::file_name`. -/
def splitSlash : List Char → List (List Char)
  | [] => [[]]
  | c :: rest =>
    if c = '/' then [] :: splitSlash rest
    else
      match splitSlash rest with
      | [] => [[c]]
      | g :: gs => (c :: g) :: gs

/-- `Path::file_name` on Unix-style paths: split on `/`, discard empty
and `.` components, and take the last component unless it is `..`
(in which case, as for an empty path, there is no file name). -/
def fileName (path : String) : Option String :=
  let comps := (splitSlash path.data).filter (fun c => !c.isEmpty && c != ['.'])
  match comps.getLast? with
  | none => none
  | some lastComp =>
    if lastComp = ['.', '.'] then none else some (String.mk lastComp)

/-- ASCII lowercasing of a string, modelling `str::to_lowercase` on the
ASCII executable names the matcher distinguishes. -/
def lowerAscii (s : String) : String :=
  String.mk (s.data.map Char.toLower)

/-- The key `get_shell_login_args` matches on (shell.rs lines
195-199): the basename of the path (falling back to the whole path
when there is none) lowered. -/
def basenameLower (shell_path : String) : String :=
  lowerAscii ((fileName shell_path).getD shell_path)

/-- `get_shell_login_args` (shell.rs lines 194-209). -/
def get_shell_login_args (shell_path : String) : List String :=
  let shell_name := basenameLower shell_path
  if shell_name = "bash" ∨ shell_name = "zsh" ∨ shell_name = "fish" ∨ shell_name = "sh" then
    ["-l"]
  else if shell_name = "pwsh" ∨ shell_name = "pwsh.exe" ∨
      shell_name = "powershell" ∨ shell_name = "powershell.exe" then
    ["-NoLogo"]
  else if shell_name = "cmd" ∨ shell_name = "cmd.exe" then []
  else []

/-! ## Derived observers and spec-side reformulations -/

/-- The payload bytes carried by a downstream trace for session
`session_id`: each binary frame contributes the bytes after its
1-octet length header and the identifier; control messages contribute
nothing. -/
def framesBytes (session_id : String) : List OutMsg → List Nat
  | [] => []
  | OutMsg.binary f :: rest =>
      f.drop (1 + (strBytes session_id).length) ++ framesBytes session_id rest
  | OutMsg.text _ :: rest => framesBytes session_id rest

/-- An event is coalesced by the batching window iff it is available no
later than the deadline and is a `Data` event. -/
def coalescable (deadline : Nat) (e : TimedEvent) : Bool :=
  decide (e.time ≤ deadline) && e.ev.isData

/-- The coalescing loop as the specification words it: with the
deadline fixed once, the accumulator collects, in arrival order, the
payloads of the longest prefix of in-window `Data` events; the loop
then exits on queue closure, on timeout (the next event lies beyond
the deadline, and is not consumed), or on an in-window `Eof` / `Error`
(consumed, setting the corresponding pending flag).  The in-window
`Data` case of the final match is unreachable, since such an event
belongs to the coalesced prefix. -/
def specCoalesce (deadline : Nat) (batch : List Nat) (evs : List TimedEvent) :
    CoalesceResult :=
  let acc := batch ++ dataBytes (evs.takeWhile (coalescable deadline))
  match evs.dropWhile (coalescable deadline) with
  | [] => ⟨acc, false, none, []⟩
  | e :: rest =>
    if e.time ≤ deadline then
      match e.ev with
      | ReadEvent.eof => ⟨acc, true, none, rest⟩
      | ReadEvent.error m => ⟨acc, false, some m, rest⟩
      | ReadEvent.data _ => ⟨acc, false, none, e :: rest⟩
    else ⟨acc, false, none, e :: rest⟩

/-- Whether a string starts with an ASCII uppercase letter — a
necessary condition for starting with a stable uppercase tag such as
`SESSION_NOT_FOUND`. -/
def firstCharUpperAscii (s : String) : Bool :=
  match s.data with
  | [] => false
  | c :: _ => decide ('A' ≤ c) && decide (c ≤ 'Z')

/-- A concrete session context used to instantiate theorems. -/
def wCtx : PtySessionContext :=
  { session := ⟨1⟩, writer := ⟨2⟩, read_task := some ⟨3⟩ }

/-- A concrete handler state holding one session `"a"`. -/
def wState : PtyHandlerState :=
  { sessions := [("a", wCtx)], ws_sender := some ⟨0⟩ }

/-! ## Lemmas about the output pump -/

theorem streamWF_tail {e : TimedEvent} {l : List TimedEvent}
    (h : streamWF (e :: l) = true) : streamWF l = true := by
  simp only [streamWF, Bool.and_eq_true] at h
  exact h.2

theorem streamWF_head_not_data {e : TimedEvent} {l : List TimedEvent}
    (h : streamWF (e :: l) = true) (hnd : e.ev.isData = false) : l = [] := by
  simp only [streamWF, Bool.and_eq_true, Bool.or_eq_true, hnd] at h
  rcases h.1 with h1 | h1
  · exact List.isEmpty_iff.mp h1
  · exact absurd h1 (by simp)

/-- Conservation across one run of the coalescing loop on a
well-formed queue trace: no byte is lost or duplicated, the remaining
trace is still well-formed, and a pending exit or error means the
trace was consumed to its end. -/
theorem coalesce_conserve (deadline : Nat) :
    ∀ (evs : List TimedEvent) (batch : List Nat), streamWF evs = true →
      (coalesce deadline batch evs).batch ++ dataBytes (coalesce deadline batch evs).rest
          = batch ++ dataBytes evs
      ∧ streamWF (coalesce deadline batch evs).rest = true
      ∧ ((coalesce deadline batch evs).pendingExit = true →
            (coalesce deadline batch evs).rest = [])
      ∧ ((coalesce deadline batch evs).pendingError.isSome = true →
            (coalesce deadline batch evs).rest = []) := by
  intro evs
  induction evs with
  | nil =>
    intro batch hwf
    simp [coalesce, dataBytes, streamWF]
  | cons e rest ih =>
    intro batch hwf
    by_cases h : e.time ≤ deadline
    · cases hev : e.ev with
      | data d =>
        have hwr : streamWF rest = true := streamWF_tail hwf
        obtain ⟨ih1, ih2, ih3, ih4⟩ := ih (batch ++ d) hwr
        refine ⟨?_, ?_, ?_, ?_⟩
        · simp only [coalesce, h, if_true, hev]
          rw [ih1]
          simp [dataBytes, hev, payloadOf, List.append_assoc]
        · simpa only [coalesce, h, if_true, hev] using ih2
        · simpa only [coalesce, h, if_true, hev] using ih3
        · simpa only [coalesce, h, if_true, hev] using ih4
      | eof =>
        have hrest : rest = [] := streamWF_head_not_data hwf (by simp [hev, ReadEvent.isData])
        subst hrest
        simp [coalesce, h, hev, dataBytes, payloadOf, streamWF]
      | error m =>
        have hrest : rest = [] := streamWF_head_not_data hwf (by simp [hev, ReadEvent.isData])
        subst hrest
        simp [coalesce, h, hev, dataBytes, payloadOf, streamWF]
    · simp [coalesce, h, hwf]

theorem framesBytes_append (session_id : String) (l1 l2 : List OutMsg) :
    framesBytes session_id (l1 ++ l2)
      = framesBytes session_id l1 ++ framesBytes session_id l2 := by
  induction l1 with
  | nil => simp [framesBytes]
  | cons m rest ih => cases m <;> simp [framesBytes, ih]

theorem buildFrame_drop (session_id : String) (batch : List Nat) :
    (buildFrame session_id batch).drop (1 + (strBytes session_id).length) = batch := by
  simp only [buildFrame, Nat.add_comm 1 (strBytes session_id).length, List.drop_succ_cons]
  exact List.drop_left _ _

/-- Generalised statement behind claim C1, by strong induction on the
length of the queue trace. -/
theorem pump_conserve_aux (sid : String) :
    ∀ (n : Nat) (evs : List TimedEvent), evs.length ≤ n → streamWF evs = true →
      framesBytes sid (pumpLoop sid evs) = dataBytes evs
      ∧ (∀ f, OutMsg.binary f ∈ pumpLoop sid evs →
            ∃ p, p ≠ [] ∧ f = buildFrame sid p) := by
  intro n
  induction n with
  | zero =>
    intro evs hlen _
    have hnil : evs = [] := List.length_eq_zero.mp (Nat.le_zero.mp hlen)
    subst hnil
    exact ⟨by simp [pumpLoop, framesBytes, dataBytes],
           fun f hf => absurd hf (by simp [pumpLoop])⟩
  | succ n ih =>
    intro evs hlen hwf
    match evs with
    | [] =>
      exact ⟨by simp [pumpLoop, framesBytes, dataBytes],
             fun f hf => absurd hf (by simp [pumpLoop])⟩
    | ⟨t, ReadEvent.eof⟩ :: rest =>
      have hrest : rest = [] := streamWF_head_not_data hwf (by simp [ReadEvent.isData])
      subst hrest
      exact ⟨by simp [pumpLoop, framesBytes, dataBytes, payloadOf],
             fun f hf => absurd hf (by simp [pumpLoop])⟩
    | ⟨t, ReadEvent.error m⟩ :: rest =>
      have hrest : rest = [] := streamWF_head_not_data hwf (by simp [ReadEvent.isData])
      subst hrest
      exact ⟨by simp [pumpLoop, framesBytes, dataBytes, payloadOf],
             fun f hf => absurd hf (by simp [pumpLoop])⟩
    | ⟨t, ReadEvent.data d⟩ :: rest =>
      have hwr : streamWF rest = true := streamWF_tail hwf
      obtain ⟨hcons, hwrest, hexit, herr⟩ := coalesce_conserve (t + 4) rest d hwr
      have hrlen : (coalesce (t + 4) d rest).rest.length ≤ n := by
        have h1 := coalesce_rest_length (t + 4) rest d
        have h2 : rest.length ≤ n := by
          simpa [List.length_cons, Nat.succ_le_succ_iff] using hlen
        omega
      obtain ⟨ihc, ihm⟩ := ih (coalesce (t + 4) d rest).rest hrlen hwrest
      have hfirst :
          framesBytes sid
            (if (coalesce (t + 4) d rest).batch.isEmpty then []
             else [OutMsg.binary (buildFrame sid (coalesce (t + 4) d rest).batch)])
            = (coalesce (t + 4) d rest).batch := by
        by_cases hbe : (coalesce (t + 4) d rest).batch.isEmpty
        · simp [hbe, framesBytes, List.isEmpty_iff.mp hbe]
        · simp [hbe, framesBytes, buildFrame_drop]
      constructor
      · rw [show pumpLoop sid (⟨t, ReadEvent.data d⟩ :: rest)
              = (if (coalesce (t + 4) d rest).batch.isEmpty then []
                 else [OutMsg.binary (buildFrame sid (coalesce (t + 4) d rest).batch)]) ++
                (if (coalesce (t + 4) d rest).pendingError.isSome then []
                 else if (coalesce (t + 4) d rest).pendingExit then
                   [OutMsg.text (exitResponse sid)]
                 else pumpLoop sid (coalesce (t + 4) d rest).rest) from by
              simp [pumpLoop]]
        rw [framesBytes_append, hfirst]
        by_cases hpe : (coalesce (t + 4) d rest).pendingError.isSome
        · rw [herr hpe] at hcons
          simp only [hpe, if_true, framesBytes]
          simpa [dataBytes, payloadOf] using hcons
        · by_cases hpx : (coalesce (t + 4) d rest).pendingExit
          · rw [hexit hpx] at hcons
            simp only [hpe, if_false, hpx, if_true, framesBytes]
            simpa [dataBytes, payloadOf] using hcons
          · rw [if_neg hpe, if_neg hpx, ihc]
            simpa [dataBytes, payloadOf] using hcons
      · intro f hf
        rw [show pumpLoop sid (⟨t, ReadEvent.data d⟩ :: rest)
              = (if (coalesce (t + 4) d rest).batch.isEmpty then []
                 else [OutMsg.binary (buildFrame sid (coalesce (t + 4) d rest).batch)]) ++
                (if (coalesce (t + 4) d rest).pendingError.isSome then []
                 else if (coalesce (t + 4) d rest).pendingExit then
                   [OutMsg.text (exitResponse sid)]
                 else pumpLoop sid (coalesce (t + 4) d rest).rest) from by
              simp [pumpLoop]] at hf
        rcases List.mem_append.mp hf with hf1 | hf2
        · by_cases hbe : (coalesce (t + 4) d rest).batch.isEmpty
          · simp [hbe] at hf1
          · simp [hbe] at hf1
            exact ⟨(coalesce (t + 4) d rest).batch,
                   by simpa [List.isEmpty_iff] using hbe, hf1⟩
        · by_cases hpe : (coalesce (t + 4) d rest).pendingError.isSome
          · simp [hpe] at hf2
          · by_cases hpx : (coalesce (t + 4) d rest).pendingExit
            · simp [hpe, hpx] at hf2
            · exact ihm f (by simpa [hpe, hpx] using hf2)

/-- The source coalescing loop agrees with its window-prefix
reformulation. -/
theorem coalesce_eq_spec (deadline : Nat) :
    ∀ (evs : List TimedEvent) (batch : List Nat),
      coalesce deadline batch evs = specCoalesce deadline batch evs := by
  intro evs
  induction evs with
  | nil => intro batch; simp [coalesce, specCoalesce, dataBytes]
  | cons e rest ih =>
    intro batch
    by_cases hc : coalescable deadline e = true
    · have hc2 : e.time ≤ deadline ∧ e.ev.isData = true := by
        simpa [coalescable, Bool.and_eq_true] using hc
      have ht : e.time ≤ deadline := hc2.1
      obtain ⟨d, hev⟩ : ∃ d, e.ev = ReadEvent.data d := by
        cases hev2 : e.ev with
        | data d => exact ⟨d, rfl⟩
        | eof => rw [hev2] at hc2; simp [ReadEvent.isData] at hc2
        | error m => rw [hev2] at hc2; simp [ReadEvent.isData] at hc2
      rw [show coalesce deadline batch (e :: rest) = coalesce deadline (batch ++ d) rest from by
            simp [coalesce, ht, hev]]
      rw [ih (batch ++ d)]
      simp only [specCoalesce, List.takeWhile_cons_of_pos hc, List.dropWhile_cons_of_pos hc]
      cases hdw : rest.dropWhile (coalescable deadline) with
      | nil => simp [dataBytes, hev, payloadOf, List.append_assoc]
      | cons f fr =>
        by_cases hft : f.time ≤ deadline
        · cases hfev : f.ev <;>
            simp [hft, hfev, dataBytes, hev, payloadOf, List.append_assoc]
        · simp [hft, dataBytes, hev, payloadOf, List.append_assoc]
    · have hcf : coalescable deadline e = false := by
        simpa using hc
      by_cases ht : e.time ≤ deadline
      · cases hev : e.ev with
        | data d =>
          exact absurd (by simp [coalescable, ht, hev, ReadEvent.isData]) hc
        | eof =>
          simp [coalesce, specCoalesce, ht, hev,
                List.takeWhile_cons_of_neg, List.dropWhile_cons_of_neg, hcf, dataBytes]
        | error m =>
          simp [coalesce, specCoalesce, ht, hev,
                List.takeWhile_cons_of_neg, List.dropWhile_cons_of_neg, hcf, dataBytes]
      · simp [coalesce, specCoalesce, ht,
              List.takeWhile_cons_of_neg, List.dropWhile_cons_of_neg, hcf, dataBytes]

/-! ## Claims about the output pump -/

/-- Claim C1: every binary data frame the pump emits for session `sid`
consists of one leading octet equal to the byte-length of `sid`,
followed by the bytes of `sid` with no terminator, followed by the
accumulated (non-empty) payload; and the concatenation of the payloads
of the emitted frames, in order, equals the concatenation of all
`Data` payloads received from the reader, so every payload byte is
emitted exactly once, in a frame whose header identifier is `sid`.
The well-formedness hypothesis states that the trace has the shape the
blocking reader produces (`Data*` then at most one `Eof`/`Error`). -/
theorem pump_frames (sid : String) (evs : List TimedEvent)
    (hlen : (strBytes sid).length < 256) (hwf : streamWF evs = true) :
    (∀ f, OutMsg.binary f ∈ pumpLoop sid evs →
        ∃ p, p ≠ [] ∧ f = (strBytes sid).length :: (strBytes sid ++ p))
    ∧ framesBytes sid (pumpLoop sid evs) = dataBytes evs := by
  obtain ⟨hc, hm⟩ := pump_conserve_aux sid evs.length evs (Nat.le_refl _) hwf
  refine ⟨?_, hc⟩
  intro f hf
  obtain ⟨p, hp, hfp⟩ := hm f hf
  refine ⟨p, hp, ?_⟩
  rw [hfp]
  simp [buildFrame, Nat.mod_eq_of_lt hlen]

/-- Claim C1 witness at a concrete trace. -/
theorem pump_frames_witness :
    (strBytes "s").length < 256
    ∧ streamWF [⟨0, ReadEvent.data [104, 105]⟩, ⟨2, ReadEvent.data [10]⟩,
                ⟨9, ReadEvent.eof⟩] = true
    ∧ framesBytes "s" (pumpLoop "s" [⟨0, ReadEvent.data [104, 105]⟩,
          ⟨2, ReadEvent.data [10]⟩, ⟨9, ReadEvent.eof⟩])
        = dataBytes [⟨0, ReadEvent.data [104, 105]⟩, ⟨2, ReadEvent.data [10]⟩,
                     ⟨9, ReadEvent.eof⟩] :=
  ⟨by decide, by decide,
   (pump_frames "s" [⟨0, ReadEvent.data [104, 105]⟩, ⟨2, ReadEvent.data [10]⟩,
      ⟨9, ReadEvent.eof⟩] (by decide) (by decide)).2⟩

/-- Claim C2: a batcher iteration whose first event is `Data` at time
`t` opens the single deadline `t + 4` ms and runs the coalescing loop
at that fixed deadline (first conjunct: the iteration unfolds to
exactly one `coalesce` call, whose deadline never changes); the
coalescing loop appends each in-window `Data` payload to the
accumulator in arrival order without resetting the deadline, and exits
on `Eof`, `Error`, timeout, or queue closure (second conjunct: the
loop equals its window-prefix reformulation `specCoalesce`). -/
theorem coalesce_fixed_window :
    (∀ (sid : String) (t : Nat) (d : List Nat) (evs : List TimedEvent),
        pumpLoop sid (⟨t, ReadEvent.data d⟩ :: evs)
          = (if (coalesce (t + 4) d evs).batch.isEmpty then []
             else [OutMsg.binary (buildFrame sid (coalesce (t + 4) d evs).batch)]) ++
            (if (coalesce (t + 4) d evs).pendingError.isSome then []
             else if (coalesce (t + 4) d evs).pendingExit then
               [OutMsg.text (exitResponse sid)]
             else pumpLoop sid (coalesce (t + 4) d evs).rest))
    ∧ (∀ (deadline : Nat) (batch : List Nat) (evs : List TimedEvent),
        coalesce deadline batch evs = specCoalesce deadline batch evs) :=
  ⟨fun sid t d evs => by simp [pumpLoop],
   fun deadline batch evs => coalesce_eq_spec deadline evs batch⟩

/-- Claim C3: when a read `Error` is consumed during the window of an
iteration that started with `Data` and the accumulator is non-empty,
the pump emits exactly one data frame holding the accumulated bytes
and terminates, with no exit notice. -/
theorem pump_error_flush (sid : String) (t : Nat) (d : List Nat) (evs : List TimedEvent)
    (herr : (coalesce (t + 4) d evs).pendingError.isSome = true)
    (hne : (coalesce (t + 4) d evs).batch ≠ []) :
    pumpLoop sid (⟨t, ReadEvent.data d⟩ :: evs)
      = [OutMsg.binary (buildFrame sid (coalesce (t + 4) d evs).batch)] := by
  have hbe : ¬ (coalesce (t + 4) d evs).batch.isEmpty := by
    simpa [List.isEmpty_iff] using hne
  simp [pumpLoop, hbe, herr]

/-- Claim C3 witness: one data chunk followed by an in-window error. -/
theorem pump_error_flush_witness :
    (coalesce (0 + 4) [104] [⟨1, ReadEvent.error "boom"⟩]).pendingError.isSome = true
    ∧ (coalesce (0 + 4) [104] [⟨1, ReadEvent.error "boom"⟩]).batch ≠ []
    ∧ pumpLoop "s" [⟨0, ReadEvent.data [104]⟩, ⟨1, ReadEvent.error "boom"⟩]
        = [OutMsg.binary (buildFrame "s"
            (coalesce (0 + 4) [104] [⟨1, ReadEvent.error "boom"⟩]).batch)] :=
  ⟨by decide, by decide,
   pump_error_flush "s" 0 [104] [⟨1, ReadEvent.error "boom"⟩] (by decide) (by decide)⟩

/-- Claim C4: an iteration whose first event is `Eof` (a zero-byte
read) emits no empty data frame; the pump sends exactly one exit
notice — the control message carrying the session identifier and the
literal exit code 0 — and terminates. -/
theorem pump_eof_exit (sid : String) (t : Nat) (evs : List TimedEvent) :
    pumpLoop sid (⟨t, ReadEvent.eof⟩ :: evs)
      = [OutMsg.text { module := ModuleType.pty
                       msg_type := "exit"
                       payload := [("session_id", JsonVal.str sid),
                                   ("code", JsonVal.num 0)] }] := by
  simp [pumpLoop, exitResponse]

/-! ## Claims about the session handler -/

theorem lookup_eq_none_of_not_mem :
    ∀ (l : List (String × PtySessionContext)) (k : String),
      k ∉ l.map Prod.fst → l.lookup k = none := by
  intro l
  induction l with
  | nil => intro k _; rfl
  | cons a rest ih =>
    intro k hk
    have h1 : k ≠ a.1 := by
      intro he; exact hk (by simp [he])
    have h2 : k ∉ rest.map Prod.fst := fun hm => hk (by simp [hm])
    have hb : (k == a.1) = false := by simpa using h1
    calc ((a.1, a.2) :: rest).lookup k = rest.lookup k := by simp [List.lookup, hb]
    _ = none := ih k h2

theorem lookup_eraseP_self :
    ∀ (l : List (String × PtySessionContext)) (k : String),
      (l.map Prod.fst).Nodup →
      (l.eraseP (fun p => p.1 == k)).lookup k = none := by
  intro l
  induction l with
  | nil => intro k _; rfl
  | cons a rest ih =>
    intro k hnd
    have hnd1 : (a.1 :: rest.map Prod.fst).Nodup := by simpa using hnd
    have hnotmem : a.1 ∉ rest.map Prod.fst := (List.nodup_cons.mp hnd1).1
    have hndtail : (rest.map Prod.fst).Nodup := (List.nodup_cons.mp hnd1).2
    by_cases hak : (a.1 == k) = true
    · have he : (a :: rest).eraseP (fun p => p.1 == k) = rest :=
        List.eraseP_cons_of_pos (p := fun q : String × PtySessionContext => q.1 == k) hak
      rw [he]
      have hke : k = a.1 := (beq_iff_eq.mp hak).symm
      exact lookup_eq_none_of_not_mem rest k (hke ▸ hnotmem)
    · have he : (a :: rest).eraseP (fun p => p.1 == k) =
          a :: rest.eraseP (fun p => p.1 == k) := by
        rw [List.eraseP_cons_of_neg]
        simpa using hak
      rw [he]
      have hka : (k == a.1) = false := by
        have h3 : a.1 ≠ k := by simpa using hak
        simpa using (Ne.symm h3)
      calc ((a.1, a.2) :: rest.eraseP (fun p => p.1 == k)).lookup k
          = (rest.eraseP (fun p => p.1 == k)).lookup k := by simp [List.lookup, hka]
      _ = none := ih k hndtail

/-- Claim C5: when `sid` is in the session table, the first
`destroy(sid)` returns success and removes the entry, and a second
`destroy(sid)` yields the `SESSION_NOT_FOUND` error while leaving the
table unchanged; `destroy` of an identifier that is absent returns the
same stable error and leaves the table unchanged, and repeating it
yields the identical error again.  The `Nodup` hypothesis records that
the embedded association list stands for a `HashMap` (unique keys). -/
theorem destroy_once (st : PtyHandlerState) (sid : String)
    (hnd : (st.sessions.map Prod.fst).Nodup) :
    ((st.sessions.lookup sid).isSome = true →
        (handle_destroy st sid).1 = Except.ok ()
        ∧ (handle_destroy st sid).2.sessions.lookup sid = none
        ∧ handle_destroy (handle_destroy st sid).2 sid
            = (Except.error (RouterError.moduleError ("SESSION_NOT_FOUND: " ++ sid)),
               (handle_destroy st sid).2))
    ∧ (st.sessions.lookup sid = none →
        handle_destroy st sid
          = (Except.error (RouterError.moduleError ("SESSION_NOT_FOUND: " ++ sid)), st)
        ∧ handle_destroy (handle_destroy st sid).2 sid
            = (Except.error (RouterError.moduleError ("SESSION_NOT_FOUND: " ++ sid)), st)) := by
  constructor
  · intro hs
    obtain ⟨ctx, hctx⟩ := Option.isSome_iff_exists.mp hs
    have hgone : (st.sessions.eraseP (fun p => p.1 == sid)).lookup sid = none :=
      lookup_eraseP_self st.sessions sid hnd
    refine ⟨by simp [handle_destroy, hctx], by simp [handle_destroy, hctx, hgone], ?_⟩
    simp [handle_destroy, hctx, hgone]
  · intro hn
    refine ⟨by simp [handle_destroy, hn], ?_⟩
    simp [handle_destroy, hn]

/-- Claim C5 witness: a table holding session `"a"`, destroyed twice,
and a destroy of the unknown id `"ghost"`. -/
theorem destroy_once_witness :
    (wState.sessions.map Prod.fst).Nodup
    ∧ (wState.sessions.lookup "a").isSome = true
    ∧ (handle_destroy wState "a").1 = Except.ok ()
    ∧ (handle_destroy wState "a").2.sessions.lookup "a" = none
    ∧ handle_destroy (handle_destroy wState "a").2 "a"
        = (Except.error (RouterError.moduleError ("SESSION_NOT_FOUND: " ++ "a")),
           (handle_destroy wState "a").2)
    ∧ handle_destroy wState "ghost"
        = (Except.error (RouterError.moduleError ("SESSION_NOT_FOUND: " ++ "ghost")), wState) :=
  ⟨by decide, by decide,
   ((destroy_once wState "a" (by decide)).1 (by decide)).1,
   ((destroy_once wState "a" (by decide)).1 (by decide)).2.1,
   ((destroy_once wState "a" (by decide)).1 (by decide)).2.2,
   ((destroy_once wState "ghost" (by decide)).2 (by decide)).1⟩

/-- Claim C6: a failed `handle_init` — whether the PTY factory fails
or the downstream sender is not yet set — returns a `ModuleError` and
leaves the handler state (in particular the session table) unchanged,
so no entry is inserted and no `init_complete` response is produced. -/
theorem init_failure_no_session (st : PtyHandlerState) (sid : String)
    (factory : Except String (PtySession × PtyReader × PtyWriter))
    (h : (∃ e, factory = Except.error e) ∨ st.ws_sender = none) :
    (∃ m, (handle_init st sid factory).1 = Except.error (RouterError.moduleError m))
    ∧ (handle_init st sid factory).2 = st := by
  rcases h with ⟨e, he⟩ | hw
  · subst he
    exact ⟨⟨"创建 PTY 会话失败: " ++ e, rfl⟩, rfl⟩
  · cases factory with
    | error e => exact ⟨⟨"创建 PTY 会话失败: " ++ e, rfl⟩, rfl⟩
    | ok v =>
      obtain ⟨s, r, w⟩ := v
      exact ⟨⟨"WebSocket sender not set", by simp [handle_init, hw]⟩,
             by simp [handle_init, hw]⟩

/-- Claim C6 witness: factory failure with a sender set. -/
theorem init_failure_no_session_witness :
    ((∃ e, (Except.error "spawn failed" :
        Except String (PtySession × PtyReader × PtyWriter)) = Except.error e)
      ∨ wState.ws_sender = none)
    ∧ (∃ m, (handle_init wState "s" (Except.error "spawn failed")).1
          = Except.error (RouterError.moduleError m))
    ∧ (handle_init wState "s" (Except.error "spawn failed")).2 = wState :=
  ⟨Or.inl ⟨"spawn failed", rfl⟩,
   (init_failure_no_session wState "s" (Except.error "spawn failed")
      (Or.inl ⟨"spawn failed", rfl⟩)).1,
   (init_failure_no_session wState "s" (Except.error "spawn failed")
      (Or.inl ⟨"spawn failed", rfl⟩)).2⟩

theorem cleanupActions_mem :
    ∀ (l : List (String × PtySessionContext)) (p : String × PtySessionContext), p ∈ l →
      CleanupAction.kill p.1 ∈ cleanupActions l
      ∧ (p.2.read_task.isSome = true → CleanupAction.awaitTask p.1 ∈ cleanupActions l) := by
  intro l
  induction l with
  | nil => intro p hp; exact absurd hp (by simp)
  | cons q rest ih =>
    intro p hp
    rcases List.mem_cons.mp hp with h1 | h2
    · subst h1
      refine ⟨by simp [cleanupActions], ?_⟩
      intro hrt
      obtain ⟨tk, htk⟩ := Option.isSome_iff_exists.mp hrt
      rcases p with ⟨ps, pc⟩
      have htk2 : pc.read_task = some tk := htk
      simp [cleanupActions, htk2]
    · obtain ⟨k1, k2⟩ := ih p h2
      rcases q with ⟨qs, qc⟩
      refine ⟨?_, fun hrt => ?_⟩
      · simp only [cleanupActions, List.mem_cons, List.mem_append]
        exact Or.inr (Or.inr k1)
      · simp only [cleanupActions, List.mem_cons, List.mem_append]
        exact Or.inr (Or.inr (k2 hrt))

/-- Claim C7: after `cleanup_all` the session table is empty and
`has_sessions` is false; every drained entry receives a `kill()`
attempt, and every drained entry that still holds a pump-task handle
has that task awaited, all before `cleanup_all` returns (the action
trace is part of its result).  Its Rust return type is `()`: there is
no error path, matching "never raises an error". -/
theorem cleanup_all_spec (st : PtyHandlerState) :
    (cleanup_all st).1.sessions = []
    ∧ has_sessions (cleanup_all st).1 = false
    ∧ (∀ p ∈ st.sessions, CleanupAction.kill p.1 ∈ (cleanup_all st).2)
    ∧ (∀ p ∈ st.sessions, p.2.read_task.isSome = true →
          CleanupAction.awaitTask p.1 ∈ (cleanup_all st).2) :=
  ⟨rfl, rfl,
   fun p hp => (cleanupActions_mem st.sessions p hp).1,
   fun p hp hrt => (cleanupActions_mem st.sessions p hp).2 hrt⟩

/-- Claim C7 witness at the one-session state. -/
theorem cleanup_all_spec_witness :
    ("a", wCtx) ∈ wState.sessions
    ∧ wCtx.read_task.isSome = true
    ∧ CleanupAction.kill "a" ∈ (cleanup_all wState).2
    ∧ CleanupAction.awaitTask "a" ∈ (cleanup_all wState).2
    ∧ (cleanup_all wState).1.sessions = [] :=
  ⟨by decide, by decide,
   (cleanup_all_spec wState).2.2.1 ("a", wCtx) (by decide),
   (cleanup_all_spec wState).2.2.2 ("a", wCtx) (by decide) (by decide),
   (cleanup_all_spec wState).1⟩

/-- Claim C8 counterexample: the `ModuleError` returned by `handle`
for an unknown message type is `"未知的 PTY 消息类型: flush"`, whose
first character is not an ASCII uppercase letter, so it does not begin
with a stable uppercase tag such as `SESSION_NOT_FOUND`. -/
theorem handle_unknown_message_no_tag :
    (handle { sessions := [], ws_sender := none }
       { factory := Except.error "x", resizeResult := Except.ok (), new_session_id := "s" }
       { msg_type := "flush", session_id := none, cols := none, rows := none,
         shell_type := none, cwd := none }).1
      = Except.error (RouterError.moduleError "未知的 PTY 消息类型: flush")
    ∧ firstCharUpperAscii "未知的 PTY 消息类型: flush" = false
    ∧ write_data { sessions := [("a", wCtx)], ws_sender := some ⟨0⟩ } "a"
        (Except.error "broken pipe")
      = Except.error (RouterError.moduleError "写入 PTY 失败: broken pipe")
    ∧ firstCharUpperAscii "写入 PTY 失败: broken pipe" = false := by
  refine ⟨by decide, by decide, by decide, by decide⟩

/-- Claim C8 as amended: only the lookup-failure and missing-id errors
carry a stable uppercase tag — `SESSION_NOT_FOUND: <id>` from
`write_data`, `handle_resize` and `handle_destroy`, and the exact
string `SESSION_ID_REQUIRED` from `handle` on a `resize`/`destroy`
without a session id; the other `ModuleError` messages (spawn, resize
and write failures, the unset downstream sender, unknown message
types) are plain descriptive strings that do not begin with an
uppercase tag. -/
theorem error_tags (st : PtyHandlerState) (sid : String) (cols rows : Nat)
    (wr rr : Except String Unit) (fx : HandlerEffects) (msg : ModuleMessage)
    (hnf : st.sessions.lookup sid = none)
    (hmt : msg.msg_type = "resize" ∨ msg.msg_type = "destroy")
    (hnoid : msg.session_id = none) :
    write_data st sid wr
        = Except.error (RouterError.moduleError ("SESSION_NOT_FOUND: " ++ sid))
    ∧ handle_resize st sid cols rows rr
        = Except.error (RouterError.moduleError ("SESSION_NOT_FOUND: " ++ sid))
    ∧ (handle_destroy st sid).1
        = Except.error (RouterError.moduleError ("SESSION_NOT_FOUND: " ++ sid))
    ∧ (handle st fx msg).1
        = Except.error (RouterError.moduleError "SESSION_ID_REQUIRED")
    ∧ strStartsWith ("SESSION_NOT_FOUND: " ++ sid) "SESSION_NOT_FOUND" = true
    ∧ firstCharUpperAscii ("SESSION_NOT_FOUND: " ++ sid) = true
    ∧ firstCharUpperAscii "SESSION_ID_REQUIRED" = true := by
  refine ⟨by simp [write_data, hnf], by simp [handle_resize, hnf],
          by simp [handle_destroy, hnf], ?_, ?_, ?_, by decide⟩
  · rcases hmt with h | h <;> simp [handle, h, hnoid]
  · rw [strStartsWith, List.isPrefixOf_iff_prefix, String.data_append]
    have hsplit : ("SESSION_NOT_FOUND: " : String).data
        = ("SESSION_NOT_FOUND" : String).data ++ (": " : String).data := by decide
    rw [hsplit, List.append_assoc]
    exact List.prefix_append _ _
  · have h1 : ("SESSION_NOT_FOUND: " : String).data
        = 'S' :: ("ESSION_NOT_FOUND: " : String).data := by decide
    have hd : ("SESSION_NOT_FOUND: " ++ sid).data
        = 'S' :: (("ESSION_NOT_FOUND: " : String).data ++ sid.data) := by
      rw [String.data_append, h1]; rfl
    simp only [firstCharUpperAscii]
    rw [hd]
    rfl

/-- Claim C8 amended witness: an empty table queried for `"ghost"`,
and a `resize` message without a session id. -/
theorem error_tags_witness :
    (PtyHandlerState.mk [] none).sessions.lookup "ghost" = none
    ∧ (("resize" : String) = "resize" ∨ ("resize" : String) = "destroy")
    ∧ write_data (PtyHandlerState.mk [] none) "ghost" (Except.ok ())
        = Except.error (RouterError.moduleError ("SESSION_NOT_FOUND: " ++ "ghost"))
    ∧ (handle (PtyHandlerState.mk [] none)
         (HandlerEffects.mk (Except.error "x") (Except.ok ()) "s")
         (ModuleMessage.mk "resize" none none none none none)).1
        = Except.error (RouterError.moduleError "SESSION_ID_REQUIRED")
    ∧ strStartsWith ("SESSION_NOT_FOUND: " ++ "ghost") "SESSION_NOT_FOUND" = true :=
  ⟨rfl, Or.inl rfl,
   (error_tags (PtyHandlerState.mk [] none) "ghost" 80 24 (Except.ok ()) (Except.ok ())
      (HandlerEffects.mk (Except.error "x") (Except.ok ()) "s")
      (ModuleMessage.mk "resize" none none none none none)
      rfl (Or.inl rfl) rfl).1,
   (error_tags (PtyHandlerState.mk [] none) "ghost" 80 24 (Except.ok ()) (Except.ok ())
      (HandlerEffects.mk (Except.error "x") (Except.ok ()) "s")
      (ModuleMessage.mk "resize" none none none none none)
      rfl (Or.inl rfl) rfl).2.2.2.1,
   (error_tags (PtyHandlerState.mk [] none) "ghost" 80 24 (Except.ok ()) (Except.ok ())
      (HandlerEffects.mk (Except.error "x") (Except.ok ()) "s")
      (ModuleMessage.mk "resize" none none none none none)
      rfl (Or.inl rfl) rfl).2.2.2.2.1⟩

/-! ## Claims about the shell helpers -/

/-- Claim C9 counterexample: for the path `"pwsh.exe"` the lowered
basename is `"pwsh.exe"` — neither `"pwsh"` nor `"powershell"` — yet
the login-argument helper returns `["-NoLogo"]`; so the helper does
not return `["-NoLogo"]` exactly when the basename is `pwsh` or
`powershell`. -/
theorem login_args_exe_counterexample :
    get_shell_login_args "pwsh.exe" = ["-NoLogo"]
    ∧ basenameLower "pwsh.exe" ≠ "pwsh"
    ∧ basenameLower "pwsh.exe" ≠ "powershell" := by
  refine ⟨by decide, by decide, by decide⟩

/-- Claim C9 as amended: keyed on the executable basename lowered to
lower case, the helper returns `["-l"]` exactly when the basename is
one of `bash`, `zsh`, `fish`, `sh`; returns `["-NoLogo"]` exactly
when it is one of `pwsh`, `pwsh.exe`, `powershell`, `powershell.exe`
(the code also matches the Windows `.exe`-suffixed names); and
returns the empty list for every other basename. -/
theorem login_args_by_basename (p : String) :
    (get_shell_login_args p = ["-l"] ↔
      basenameLower p ∈ (["bash", "zsh", "fish", "sh"] : List String))
    ∧ (get_shell_login_args p = ["-NoLogo"] ↔
      basenameLower p ∈ (["pwsh", "pwsh.exe", "powershell", "powershell.exe"] : List String))
    ∧ (get_shell_login_args p = [] ↔
      (["bash", "zsh", "fish", "sh", "pwsh", "pwsh.exe", "powershell",
        "powershell.exe"] : List String).contains (basenameLower p) = false) := by
  by_cases h1 : basenameLower p = "bash"
  · simp only [get_shell_login_args]; rw [h1]; decide
  by_cases h2 : basenameLower p = "zsh"
  · simp only [get_shell_login_args]; rw [h2]; decide
  by_cases h3 : basenameLower p = "fish"
  · simp only [get_shell_login_args]; rw [h3]; decide
  by_cases h4 : basenameLower p = "sh"
  · simp only [get_shell_login_args]; rw [h4]; decide
  by_cases h5 : basenameLower p = "pwsh"
  · simp only [get_shell_login_args]; rw [h5]; decide
  by_cases h6 : basenameLower p = "pwsh.exe"
  · simp only [get_shell_login_args]; rw [h6]; decide
  by_cases h7 : basenameLower p = "powershell"
  · simp only [get_shell_login_args]; rw [h7]; decide
  by_cases h8 : basenameLower p = "powershell.exe"
  · simp only [get_shell_login_args]; rw [h8]; decide
  have hval : get_shell_login_args p = [] := by
    simp only [get_shell_login_args]
    rw [if_neg (by tauto), if_neg (by tauto)]
    exact ite_self []
  refine ⟨?_, ?_, ?_⟩
  · rw [hval]
    simp [List.mem_cons, h1, h2, h3, h4]
  · rw [hval]
    simp [List.mem_cons, h5, h6, h7, h8]
  · rw [hval]
    simp [List.mem_cons, h1, h2, h3, h4, h5, h6, h7, h8]

theorem get_default_shell_args (env : ShellEnv) : (get_default_shell env).args = [] := rfl

/-- Claim C10: `get_shell_by_type` returns a command whose argument
vector is empty — it never consults the login-argument helper — with
the single exception of the `gitbash` token on Windows when a Git
Bash executable is found, where the command carries exactly the one
argument `--login`; in particular the tokens `bash`, `zsh`, `cmd`,
`wsl`, `pwsh` and `custom:<path>` all resolve with no arguments. -/
theorem shell_by_type_no_args :
    (∀ (env : ShellEnv) (st : Option String),
        (get_shell_by_type env st).args = []
        ∨ (st = some "gitbash" ∧ env.is_windows = true
           ∧ ∃ p, detect_gitbash env = some p
               ∧ get_shell_by_type env st = CommandBuilder.mk p ["--login"]))
    ∧ (∀ (env : ShellEnv),
        (get_shell_by_type env (some "bash")).args = []
        ∧ (get_shell_by_type env (some "zsh")).args = []
        ∧ (get_shell_by_type env (some "cmd")).args = []
        ∧ (get_shell_by_type env (some "wsl")).args = []
        ∧ (get_shell_by_type env (some "pwsh")).args = []
        ∧ ∀ (pth : String),
            (get_shell_by_type env (some ("custom:" ++ pth))).args = []) := by
  constructor
  · intro env st
    match st with
    | none => exact Or.inl rfl
    | some t =>
      simp only [get_shell_by_type]
      by_cases h1 : t = "cmd"
      · rw [if_pos h1]; exact Or.inl rfl
      rw [if_neg h1]
      by_cases h2 : t = "powershell"
      · rw [if_pos h2]
        left
        by_cases hw : env.is_windows = true
        · rw [if_pos hw]
          rcases hps : env.which_powershell with _ | q <;> simp [hps, CommandBuilder.new]
        · rw [if_neg hw]; rfl
      rw [if_neg h2]
      by_cases h3 : t = "pwsh"
      · rw [if_pos h3]
        left
        by_cases hw : env.is_windows = true
        · rw [if_pos hw]
          rcases hpw : env.which_pwsh with _ | q
          · rcases hps : env.which_powershell with _ | q <;>
              simp [hpw, hps, CommandBuilder.new]
          · simp [hpw, CommandBuilder.new]
        · rw [if_neg hw]; rfl
      rw [if_neg h3]
      by_cases h4 : t = "wsl"
      · rw [if_pos h4]; exact Or.inl rfl
      rw [if_neg h4]
      by_cases h5 : t = "gitbash"
      · rw [if_pos h5]
        by_cases hw : env.is_windows = true
        · rw [if_pos hw]
          rcases hg : detect_gitbash env with _ | q
          · simp only [hg]
            exact Or.inl rfl
          · right
            refine ⟨by rw [h5], hw, q, rfl, ?_⟩
            simp [CommandBuilder.new, CommandBuilder.addArg]
        · rw [if_neg hw]; exact Or.inl rfl
      rw [if_neg h5]
      by_cases h6 : t = "bash"
      · rw [if_pos h6]; exact Or.inl rfl
      rw [if_neg h6]
      by_cases h7 : t = "zsh"
      · rw [if_pos h7]; exact Or.inl rfl
      rw [if_neg h7]
      by_cases h8 : strStartsWith t "custom:" = true
      · rw [if_pos h8]; exact Or.inl rfl
      · rw [if_neg h8]; exact Or.inl rfl
  · intro env
    refine ⟨?_, ?_, ?_, ?_, ?_, ?_⟩
    · simp [get_shell_by_type, CommandBuilder.new]
    · simp [get_shell_by_type, CommandBuilder.new]
    · simp [get_shell_by_type, CommandBuilder.new]
    · simp [get_shell_by_type, CommandBuilder.new]
    · by_cases hw : env.is_windows = true
      · rcases hpw : env.which_pwsh with _ | q
        · rcases hps : env.which_powershell with _ | q <;>
            simp [get_shell_by_type, hw, hpw, hps, CommandBuilder.new]
        · simp [get_shell_by_type, hw, hpw, CommandBuilder.new]
      · simp [get_shell_by_type, hw, CommandBuilder.new]
    · intro pth
      have hd : ("custom:" ++ pth).data
          = 'c' :: 'u' :: 's' :: 't' :: 'o' :: 'm' :: ':' :: pth.data := by
        rw [String.data_append]
        rfl
      have hne : ∀ s : String,
          s.data ≠ 'c' :: 'u' :: 's' :: 't' :: 'o' :: 'm' :: ':' :: pth.data →
          ¬("custom:" ++ pth = s) := fun s hs he => hs (by rw [← he, hd])
      have hsw : strStartsWith ("custom:" ++ pth) "custom:" = true := by
        rw [strStartsWith, List.isPrefixOf_iff_prefix, hd]
        exact ⟨pth.data, rfl⟩
      have hcmd : ¬("custom:" ++ pth = "cmd") := hne "cmd" (by
        intro h
        have h2 : (['c', 'm', 'd'] : List Char)
            = 'c' :: 'u' :: 's' :: 't' :: 'o' :: 'm' :: ':' :: pth.data := h
        simp at h2)
      have hpsh : ¬("custom:" ++ pth = "powershell") := hne "powershell" (by
        intro h
        have h2 : (['p', 'o', 'w', 'e', 'r', 's', 'h', 'e', 'l', 'l'] : List Char)
            = 'c' :: 'u' :: 's' :: 't' :: 'o' :: 'm' :: ':' :: pth.data := h
        simp at h2)
      have hpw : ¬("custom:" ++ pth = "pwsh") := hne "pwsh" (by
        intro h
        have h2 : (['p', 'w', 's', 'h'] : List Char)
            = 'c' :: 'u' :: 's' :: 't' :: 'o' :: 'm' :: ':' :: pth.data := h
        simp at h2)
      have hwsl : ¬("custom:" ++ pth = "wsl") := hne "wsl" (by
        intro h
        have h2 : (['w', 's', 'l'] : List Char)
            = 'c' :: 'u' :: 's' :: 't' :: 'o' :: 'm' :: ':' :: pth.data := h
        simp at h2)
      have hgb : ¬("custom:" ++ pth = "gitbash") := hne "gitbash" (by
        intro h
        have h2 : (['g', 'i', 't', 'b', 'a', 's', 'h'] : List Char)
            = 'c' :: 'u' :: 's' :: 't' :: 'o' :: 'm' :: ':' :: pth.data := h
        simp at h2)
      have hbash : ¬("custom:" ++ pth = "bash") := hne "bash" (by
        intro h
        have h2 : (['b', 'a', 's', 'h'] : List Char)
            = 'c' :: 'u' :: 's' :: 't' :: 'o' :: 'm' :: ':' :: pth.data := h
        simp at h2)
      have hzsh : ¬("custom:" ++ pth = "zsh") := hne "zsh" (by
        intro h
        have h2 : (['z', 's', 'h'] : List Char)
            = 'c' :: 'u' :: 's' :: 't' :: 'o' :: 'm' :: ':' :: pth.data := h
        simp at h2)
      simp only [get_shell_by_type]
      rw [if_neg hcmd, if_neg hpsh, if_neg hpw, if_neg hwsl, if_neg hgb,
          if_neg hbash, if_neg hzsh, if_pos hsw]
      rfl
